import Mathlib

/-
Verification of the personal-finance backend's core logic:
the recurring-expense due evaluator (`app/routers/recurring.py`),
the analytics aggregator (`app/routers/analytics.py`),
the budget CRUD operations (`app/routers/budgets.py`), and
the recurring-expense partial update (`app/routers/recurring.py`).

Timestamps model Python `datetime` values as integer seconds since
1970-01-01 00:00:00 (UTC, no microseconds).  Calendar-field access
(`.year`, `.month`) is computed with the standard proleptic-Gregorian
civil-from-days algorithm, and `datetime(y, m, d, ...)` construction with
its inverse.  `timedelta.days` is floored division by 86400 seconds,
matching Python's normalization of negative timedeltas.  Monetary amounts
are modelled as rationals.
-/

namespace FinTrack

/-- A point in time: seconds since 1970-01-01 00:00:00. -/
abbrev Timestamp := Int

/-- Days-to-civil-date conversion (proleptic Gregorian calendar):
given a count of days since 1970-01-01, return (year, month, day).
This models how Python's `datetime` exposes `.year` / `.month`. -/
def civilFromDays (z : Int) : Int × Int × Int :=
  let z' := z + 719468
  let era := Int.fdiv z' 146097
  let doe := z' - era * 146097
  let yoe := Int.fdiv (doe - Int.fdiv doe 1460 + Int.fdiv doe 36524 - Int.fdiv doe 146096) 365
  let y := yoe + era * 400
  let doy := doe - (365 * yoe + Int.fdiv yoe 4 - Int.fdiv yoe 100)
  let mp := Int.fdiv (5 * doy + 2) 153
  let d := doy - Int.fdiv (153 * mp + 2) 5 + 1
  let m := if mp < 10 then mp + 3 else mp - 9
  (if m ≤ 2 then y + 1 else y, m, d)

/-- Civil-date-to-days conversion (inverse of `civilFromDays`):
days since 1970-01-01 of the date (y, m, d).  Models `datetime(y, m, d)`. -/
def daysFromCivil (y m d : Int) : Int :=
  let y' := if m ≤ 2 then y - 1 else y
  let era := Int.fdiv y' 400
  let yoe := y' - era * 400
  let mp := Int.emod (m + 9) 12
  let doy := Int.fdiv (153 * mp + 2) 5 + d - 1
  let doe := yoe * 365 + Int.fdiv yoe 4 - Int.fdiv yoe 100 + doy
  era * 146097 + doe - 719468

/-- The civil day number a timestamp falls on. -/
def tsDays (ts : Timestamp) : Int := Int.fdiv ts 86400

/-- Python `dt.year`. -/
def tsYear (ts : Timestamp) : Int := (civilFromDays (tsDays ts)).1

/-- Python `dt.month`. -/
def tsMonth (ts : Timestamp) : Int := (civilFromDays (tsDays ts)).2.1

/-- Python `datetime(y, m, d, h, mi, s)` as a timestamp. -/
def mkTs (y m d h mi s : Int) : Timestamp :=
  daysFromCivil y m d * 86400 + h * 3600 + mi * 60 + s

/-- Python `(a - b).days`: `timedelta` normalizes so `.days` is the floor
of the difference in days (also for negative differences). -/
def daysBetween (a b : Timestamp) : Int := Int.fdiv (a - b) 86400

/-- The fallback epoch `datetime(1970, 1, 1)` used by the evaluator when
`last_generated` is NULL (`recurring.py` line 135). -/
def epoch1970 : Timestamp := mkTs 1970 1 1 0 0 0

/-- The frequency enum (`schemas.py` `FrequencyEnum` / `models.py`). -/
inductive Frequency where
  | daily
  | weekly
  | monthly
  | yearly
deriving DecidableEq, Repr

/-- The category enum (`schemas.py` `CategoryEnum`), in declaration order. -/
inductive Category where
  | food
  | transport
  | entertainment
  | utilities
  | health
  | shopping
  | other
deriving DecidableEq, Repr

/-- Iteration order of `for category in CategoryEnum` in Python:
enum declaration order. -/
def Category.all : List Category :=
  [.food, .transport, .entertainment, .utilities, .health, .shopping, .other]

/-- The due check of `process_recurring_expenses` (`recurring.py` lines
134-148): `last_generated or datetime(1970, 1, 1)` (a `datetime` is always
truthy, so `or` only replaces `None`), then one branch per frequency. -/
def shouldGenerate (freq : Frequency) (lastGenerated : Option Timestamp)
    (now : Timestamp) : Bool :=
  let last := lastGenerated.getD epoch1970
  match freq with
  | .daily => decide (1 ≤ daysBetween now last)
  | .weekly => decide (7 ≤ daysBetween now last)
  | .monthly =>
      decide (tsMonth now ≠ tsMonth last) || decide (tsYear now ≠ tsYear last)
  | .yearly => decide (tsYear now ≠ tsYear last)

/-- An expense row (`models.py` `Expense`), restricted to the columns the
evaluator writes and the aggregator reads. -/
structure Expense where
  owner_id : ℕ
  amount : ℚ
  category : Category
  description : Option String
  date : Timestamp
deriving DecidableEq, Repr

/-- A recurring-expense row (`models.py` `RecurringExpense`). -/
structure RecurringExpense where
  id : ℕ
  owner_id : ℕ
  amount : ℚ
  category : Category
  description : Option String
  frequency : Frequency
  is_active : Bool
  last_generated : Option Timestamp
deriving DecidableEq, Repr

/-- Python rendering of the optional description inside the f-string
`f"Recurring: {recurring.description}"`: `None` prints as "None". -/
def pyShowOptStr : Option String → String
  | none => "None"
  | some s => s

/-- The description given to a generated expense (`recurring.py` line 156):
`recurring.description or f"Recurring: {recurring.description}"`.
Python `or` returns the left operand when it is truthy (a non-empty
string) and otherwise the right operand. -/
def fireDescription (d : Option String) : String :=
  match d with
  | some s => if s ≠ "" then s else "Recurring: " ++ pyShowOptStr (some s)
  | none => "Recurring: " ++ pyShowOptStr none

/-- The expense materialized when a recurring record fires
(`recurring.py` lines 152-158). -/
def fireExpense (r : RecurringExpense) (now : Timestamp) : Expense :=
  { owner_id := r.owner_id
    amount := r.amount
    category := r.category
    description := some (fireDescription r.description)
    date := now }

/-- The per-record firing condition of the processing loop: the DB query
keeps only `is_active == True` rows, and the loop body then evaluates the
frequency rule. -/
def dueNow (now : Timestamp) (r : RecurringExpense) : Bool :=
  r.is_active && shouldGenerate r.frequency r.last_generated now

/-- The processing loop of `process_recurring_expenses` (`recurring.py`
lines 125-163) over the full recurring-expense table: returns the list of
newly created expenses, the updated table, and the generated count. -/
def processRecurring (recs : List RecurringExpense) (now : Timestamp) :
    List Expense × List RecurringExpense × ℕ :=
  match recs with
  | [] => ([], [], 0)
  | r :: rest =>
      let res := processRecurring rest now
      if dueNow now r then
        (fireExpense r now :: res.1,
         { r with last_generated := some now } :: res.2.1,
         res.2.2 + 1)
      else
        (res.1, r :: res.2.1, res.2.2)

/-! ### Analytics aggregator (`analytics.py` `get_analytics_summary`) -/

/-- Round-half-to-even to an integer, exactly Python's `round` on values
representable without floating-point error (the tie rule never matters in
the concrete results proved below). -/
def roundHalfEven (x : ℚ) : ℤ :=
  let f := ⌊x⌋
  if x - f < 1 / 2 then f
  else if 1 / 2 < x - f then f + 1
  else if f % 2 = 0 then f else f + 1

/-- Python `round(x, 2)`. -/
def round2 (x : ℚ) : ℚ := (roundHalfEven (100 * x) : ℚ) / 100

/-- A `CategorySummary` response row (`schemas.py`). -/
structure CategorySummary where
  category : Category
  total : ℚ
  percentage : ℚ
  count : ℕ
deriving DecidableEq, Repr

/-- A `MonthlySummary` response row (`schemas.py`). -/
structure MonthlySummary where
  month : String
  total : ℚ
  by_category : List CategorySummary
deriving DecidableEq, Repr

/-- The `AnalyticsSummary` response (`schemas.py`). -/
structure AnalyticsSummary where
  total_spending : ℚ
  current_month_spending : ℚ
  by_category : List CategorySummary
  monthly_trends : List MonthlySummary
deriving DecidableEq, Repr

/-- Two-digit zero padding, as in `strftime`. -/
def pad2 (n : Int) : String := if n < 10 then "0" ++ toString n else toString n

/-- Python `dt.strftime("%Y-%m")` for the dates in range here
(four-digit years). -/
def yearMonthString (ts : Timestamp) : String :=
  toString (tsYear ts) ++ "-" ++ pad2 (tsMonth ts)

/-- Python `now.replace(day=1, hour=0, minute=0, second=0, microsecond=0)`
(`analytics.py` line 33): start of the current calendar month. -/
def monthStartOf (now : Timestamp) : Timestamp :=
  daysFromCivil (tsYear now) (tsMonth now) 1 * 86400

/-- The summary entry the aggregator emits for one category (`analytics.py`
lines 38-53): present only when the category has at least one record;
`total` and `count` from the grouping pass; percentage guarded by
`total_spending > 0`; rounding applied at emission. -/
def categorySummary (exps : List Expense) (totalSpending : ℚ)
    (c : Category) : Option CategorySummary :=
  let catExps := exps.filter (fun e => decide (e.category = c))
  if catExps.isEmpty then none
  else
    let total := (catExps.map (·.amount)).sum
    let percentage := if 0 < totalSpending then total / totalSpending * 100 else 0
    some { category := c
           total := round2 total
           percentage := round2 percentage
           count := catExps.length }

/-- The `by_category` list (`analytics.py` lines 43-53): iterate the
category enum in declaration order, keeping only present categories. -/
def categoryBreakdown (exps : List Expense) (totalSpending : ℚ) :
    List CategorySummary :=
  Category.all.filterMap (categorySummary exps totalSpending)

/-- One 30-day bucket of the monthly trend (`analytics.py` lines 57-92),
for loop index `i` (so `month_num = months - i`). -/
def bucketSummary (exps : List Expense) (months : ℕ) (now : Timestamp)
    (i : ℕ) : MonthlySummary :=
  let monthNum : Int := (months : Int) - (i : Int)
  let monthStart := now - 30 * monthNum * 86400
  let monthEnd := monthStart + 30 * 86400
  let monthExps := exps.filter (fun e =>
    decide (monthStart ≤ e.date) && decide (e.date < monthEnd))
  let monthTotal := (monthExps.map (·.amount)).sum
  { month := yearMonthString monthStart
    total := round2 monthTotal
    by_category := categoryBreakdown monthExps monthTotal }

/-- The full aggregator (`analytics.py` lines 21-99).  The input list is
the addressed owner's expense table; the date-window filter of the DB
query (line 26) is the first step. -/
def summarize (expenses : List Expense) (months : ℕ) (now : Timestamp) :
    AnalyticsSummary :=
  let startDate := now - 30 * (months : Int) * 86400
  let exps := expenses.filter (fun e => decide (startDate ≤ e.date))
  let totalSpending := (exps.map (·.amount)).sum
  let currentMonthSpending :=
    ((exps.filter (fun e => decide (monthStartOf now ≤ e.date))).map (·.amount)).sum
  { total_spending := round2 totalSpending
    current_month_spending := round2 currentMonthSpending
    by_category := categoryBreakdown exps totalSpending
    monthly_trends := (List.range months).map (bucketSummary exps months now) }

/-! ### Exception-aware variant of the aggregator

Division is the only fallible arithmetic operation the aggregator runs
(Python raises `ZeroDivisionError` on a zero divisor).  The variant below
threads every executed division through `Option`; `none` means the Python
code would have raised. -/

/-- Checked division: `none` models Python's `ZeroDivisionError`. -/
def div? (a b : ℚ) : Option ℚ := if b = 0 then none else some (a / b)

/-- Run a fallible step over a list, propagating failure (the semantics of
straight-line Python statements inside a loop). -/
def collectSome {α β : Type} (f : α → Option β) : List α → Option (List β)
  | [] => some []
  | a :: l =>
      match f a with
      | none => none
      | some b => (collectSome f l).map (b :: ·)

/-- `categorySummary` with its division checked: the division on
`analytics.py` line 47 runs only inside the `total_spending > 0` guard. -/
def categorySummary? (exps : List Expense) (totalSpending : ℚ)
    (c : Category) : Option (Option CategorySummary) :=
  let catExps := exps.filter (fun e => decide (e.category = c))
  if catExps.isEmpty then some none
  else
    let total := (catExps.map (·.amount)).sum
    match (if 0 < totalSpending
           then (div? total totalSpending).map (· * 100)
           else some 0) with
    | none => none
    | some percentage =>
        some (some { category := c
                     total := round2 total
                     percentage := round2 percentage
                     count := catExps.length })

/-- `categoryBreakdown` with checked divisions. -/
def categoryBreakdown? (exps : List Expense) (totalSpending : ℚ) :
    Option (List CategorySummary) :=
  (collectSome (categorySummary? exps totalSpending) Category.all).map
    List.reduceOption

/-- `bucketSummary` with checked divisions (the guard on `analytics.py`
line 80). -/
def bucketSummary? (exps : List Expense) (months : ℕ) (now : Timestamp)
    (i : ℕ) : Option MonthlySummary :=
  let monthNum : Int := (months : Int) - (i : Int)
  let monthStart := now - 30 * monthNum * 86400
  let monthEnd := monthStart + 30 * 86400
  let monthExps := exps.filter (fun e =>
    decide (monthStart ≤ e.date) && decide (e.date < monthEnd))
  let monthTotal := (monthExps.map (·.amount)).sum
  match categoryBreakdown? monthExps monthTotal with
  | none => none
  | some bc =>
      some { month := yearMonthString monthStart
             total := round2 monthTotal
             by_category := bc }

/-- `summarize` with checked divisions. -/
def summarizeChecked (expenses : List Expense) (months : ℕ)
    (now : Timestamp) : Option AnalyticsSummary :=
  let startDate := now - 30 * (months : Int) * 86400
  let exps := expenses.filter (fun e => decide (startDate ≤ e.date))
  let totalSpending := (exps.map (·.amount)).sum
  let currentMonthSpending :=
    ((exps.filter (fun e => decide (monthStartOf now ≤ e.date))).map (·.amount)).sum
  match categoryBreakdown? exps totalSpending with
  | none => none
  | some byCat =>
      match collectSome (bucketSummary? exps months now) (List.range months) with
      | none => none
      | some trends =>
          some { total_spending := round2 totalSpending
                 current_month_spending := round2 currentMonthSpending
                 by_category := byCat
                 monthly_trends := trends }

/-- The window filter applied by the DB query (`analytics.py` lines
22-27): expenses dated within the last `30 * months` days. -/
def windowFiltered (expenses : List Expense) (months : ℕ) (now : Timestamp) :
    List Expense :=
  expenses.filter (fun e => decide (now - 30 * (months : Int) * 86400 ≤ e.date))

/-- The start of trend bucket `i` (`analytics.py` lines 58-59):
`now - timedelta(days=30 * (months - i))`. -/
def bucketStart (months : ℕ) (now : Timestamp) (i : ℕ) : Timestamp :=
  now - 30 * ((months : Int) - (i : Int)) * 86400

/-- The expenses of trend bucket `i` (`analytics.py` lines 62-65):
`month_start <= exp.date < month_end`. -/
def bucketExpenses (exps : List Expense) (months : ℕ) (now : Timestamp)
    (i : ℕ) : List Expense :=
  exps.filter (fun e =>
    decide (bucketStart months now i ≤ e.date) &&
    decide (e.date < bucketStart months now i + 30 * 86400))

/-! ### Budget CRUD (`budgets.py`) -/

/-- A budget row (`models.py` `Budget`), restricted to the columns the
router logic reads and writes. -/
structure Budget where
  owner_id : ℕ
  category : Category
  monthly_limit : ℚ
deriving DecidableEq, Repr

/-- The (owner, category) key the `budgets` table constrains to be unique
(`models.py` `UniqueConstraint("owner_id", "category")`). -/
def budgetKey (b : Budget) : ℕ × Category := (b.owner_id, b.category)

/-- At most one budget per (owner, category) pair. -/
def uniqueOwnerCategory (st : List Budget) : Prop :=
  (st.map budgetKey).Pairwise (fun p q => p ≠ q)

instance (st : List Budget) : Decidable (uniqueOwnerCategory st) :=
  List.instDecidablePairwise _

/-- Replace the first element satisfying `p` by its image under `f`,
leaving everything else in place: the effect of mutating the row returned
by SQLAlchemy's `.first()` and committing. -/
def updateFirst {α : Type} (p : α → Bool) (f : α → α) : List α → List α
  | [] => []
  | a :: l => if p a then f a :: l else a :: updateFirst p f l

/-- `create_budget` (`budgets.py` lines 21-47): reject with HTTP 400 when
a budget for the (owner, category) pair exists, else append the new row.
The first component is the HTTP outcome, the second the resulting table. -/
def createBudget (st : List Budget) (uid : ℕ) (cat : Category) (lim : ℚ) :
    Except ℕ Unit × List Budget :=
  if st.any (fun b => decide (b.owner_id = uid) && decide (b.category = cat)) then
    (.error 400, st)
  else
    (.ok (), st ++ [{ owner_id := uid, category := cat, monthly_limit := lim }])

/-- `update_budget` (`budgets.py` lines 49-70): 404 when no row matches,
else set `monthly_limit` on the first matching row. -/
def updateBudget (st : List Budget) (uid : ℕ) (cat : Category) (lim : ℚ) :
    Except ℕ Unit × List Budget :=
  let p := fun (b : Budget) => decide (b.owner_id = uid) && decide (b.category = cat)
  match st.find? p with
  | none => (.error 404, st)
  | some _ => (.ok (), updateFirst p (fun b => { b with monthly_limit := lim }) st)

/-- `delete_budget` (`budgets.py` lines 72-91): 404 when no row matches,
else delete the first matching row. -/
def deleteBudget (st : List Budget) (uid : ℕ) (cat : Category) :
    Except ℕ Unit × List Budget :=
  let p := fun (b : Budget) => decide (b.owner_id = uid) && decide (b.category = cat)
  match st.find? p with
  | none => (.error 404, st)
  | some _ => (.ok (), st.eraseP p)

/-! ### Recurring-expense partial update (`recurring.py` `update_recurring_expense`) -/

/-- The `RecurringExpenseUpdate` payload (`schemas.py` lines 140-145):
every field optional, `None` meaning "omitted". -/
structure RecurringExpenseUpdate where
  amount : Option ℚ
  category : Option Category
  description : Option String
  frequency : Option Frequency
  is_active : Option Bool
deriving DecidableEq, Repr

/-- The field-by-field copy of `update_recurring_expense` (`recurring.py`
lines 82-91): each `if payload.field is not None` guard. -/
def applyUpdate (r : RecurringExpense) (u : RecurringExpenseUpdate) :
    RecurringExpense :=
  { r with
    amount := match u.amount with | none => r.amount | some a => a
    category := match u.category with | none => r.category | some c => c
    description := match u.description with | none => r.description | some d => some d
    frequency := match u.frequency with | none => r.frequency | some f => f
    is_active := match u.is_active with | none => r.is_active | some b => b }

/-- `update_recurring_expense` (`recurring.py` lines 63-95): look up the
row with the given id owned by the user (404 when absent), then apply the
partial update to that row only. -/
def updateRecurringExpense (st : List RecurringExpense) (rid uid : ℕ)
    (u : RecurringExpenseUpdate) : Except ℕ Unit × List RecurringExpense :=
  let p := fun (r : RecurringExpense) => decide (r.id = rid) && decide (r.owner_id = uid)
  match st.find? p with
  | none => (.error 404, st)
  | some _ => (.ok (), updateFirst p (fun r => applyUpdate r u) st)

/-! ### Concrete fixtures used by witnesses and counterexamples -/

/-- A reference time: 2024-06-15 12:00:00. -/
def tNow : Timestamp := mkTs 2024 6 15 12 0 0

/-- An active daily recurring record with an absent description. -/
def recNoDesc : RecurringExpense :=
  { id := 1, owner_id := 1, amount := 10, category := .food,
    description := none, frequency := .daily, is_active := true,
    last_generated := none }

/-- An active daily recurring record with a non-empty description. -/
def recNetflix : RecurringExpense :=
  { id := 2, owner_id := 1, amount := 15, category := .entertainment,
    description := some "Netflix", frequency := .daily, is_active := true,
    last_generated := none }

/-- A 50-unit Food expense dated at the reference time. -/
def expFood50 : Expense :=
  { owner_id := 1, amount := 50, category := .food, description := none,
    date := tNow }

/-- A 50-unit Transport expense dated at the reference time. -/
def expTransport50 : Expense :=
  { owner_id := 1, amount := 50, category := .transport, description := none,
    date := tNow }

/-- A one-budget table for owner 1, category Food. -/
def budgetFood : Budget :=
  { owner_id := 1, category := .food, monthly_limit := 100 }

/-- An all-omitted update payload. -/
def emptyUpdate : RecurringExpenseUpdate :=
  { amount := none, category := none, description := none,
    frequency := none, is_active := none }

/-! ### Helper lemmas -/

/-- Lower bounds on floored division by 86400 follow from lower bounds on
the dividend. -/
theorem le_fdiv_86400 {k a : ℤ} (h : k * 86400 ≤ a) : k ≤ Int.fdiv a 86400 := by
  rw [Int.fdiv_eq_ediv _ (by norm_num)]
  exact (Int.le_ediv_iff_mul_le (by norm_num)).2 h

/-- The evaluator's fallback epoch is timestamp 0. -/
theorem epoch1970_eq_zero : epoch1970 = 0 := by decide

/-! ### Claim theorems -/

/-- C1 (counterexample): the claim says the due check with absent
`last_generated` returns true for every frequency and every reference
time; at `now = 1970-01-01 00:00` (the fallback epoch itself) the daily
check returns false. -/
theorem shouldGenerate_none_epoch_false :
    shouldGenerate .daily none (mkTs 1970 1 1 0 0 0) = false := by decide

/-- C1 (amended): with `last_generated` absent the check treats it as the
epoch 1970-01-01, so it returns true for every frequency whenever the
reference time is at least 7 days past that epoch and its year is not
1970 — in particular for any realistic reference time. -/
theorem shouldGenerate_none_always_due (f : Frequency) (now : Timestamp)
    (h7 : 7 * 86400 ≤ now) (hy : tsYear now ≠ 1970) :
    shouldGenerate f none now = true := by
  have h0 : (7 : ℤ) ≤ Int.fdiv (now - epoch1970) 86400 := by
    rw [epoch1970_eq_zero, sub_zero]
    exact le_fdiv_86400 h7
  have hy0 : tsYear epoch1970 = 1970 := by decide
  cases f with
  | daily =>
      simp only [shouldGenerate, Option.getD_none, daysBetween, decide_eq_true_eq]
      linarith
  | weekly =>
      simp only [shouldGenerate, Option.getD_none, daysBetween, decide_eq_true_eq]
      linarith
  | monthly =>
      simp only [shouldGenerate, Option.getD_none, Bool.or_eq_true, decide_eq_true_eq]
      right
      rw [hy0]
      exact hy
  | yearly =>
      simp only [shouldGenerate, Option.getD_none, decide_eq_true_eq]
      rw [hy0]
      exact hy

/-- Witness for C1: the amended theorem applied at frequency daily and
reference time 2024-06-15 12:00. -/
theorem shouldGenerate_none_always_due_witness :
    shouldGenerate .daily none tNow = true :=
  shouldGenerate_none_always_due .daily tNow (by decide) (by decide)

/-- C2 (counterexample): the claim characterizes the daily rule as a
calendar-day difference of at least 1; from 2024-01-01 23:00 to
2024-01-02 01:00 the calendar-day difference is 1 but the code (elapsed
time floored to days) judges the record not due. -/
theorem shouldGenerate_daily_not_calendar :
    shouldGenerate .daily (some (mkTs 2024 1 1 23 0 0)) (mkTs 2024 1 2 1 0 0) = false ∧
    tsDays (mkTs 2024 1 2 1 0 0) - tsDays (mkTs 2024 1 1 23 0 0) = 1 := by
  constructor
  · decide
  · decide

/-- C2 (amended): the daily rule is due exactly when at least 24 elapsed
hours separate `now` from `last_generated` (Python `(now - last).days >= 1`,
an elapsed-duration check, not a calendar-day comparison); in particular
23 hours after `t` it is not due and 25 hours after `t` it is due. -/
theorem shouldGenerate_daily_iff (t now : Timestamp) :
    (shouldGenerate .daily (some t) now = true ↔ t + 86400 ≤ now) ∧
    shouldGenerate .daily (some t) (t + 23 * 3600) = false ∧
    shouldGenerate .daily (some t) (t + 25 * 3600) = true := by
  refine ⟨?_, ?_, ?_⟩
  · simp only [shouldGenerate, Option.getD_some, daysBetween, decide_eq_true_eq]
    rw [Int.fdiv_eq_ediv _ (by norm_num), Int.le_ediv_iff_mul_le (by norm_num), one_mul]
    constructor <;> intro h <;> linarith
  · simp only [shouldGenerate, Option.getD_some, daysBetween]
    have h : t + 23 * 3600 - t = 82800 := by ring
    simp only [h]
    decide
  · simp only [shouldGenerate, Option.getD_some, daysBetween]
    have h : t + 25 * 3600 - t = 90000 := by ring
    simp only [h]
    decide

/-- C4 (confirmed): the monthly rule is due exactly when the (year, month)
pair of `now` differs from that of `last_generated`, and the yearly rule
exactly when the years differ; in particular 2024-01-31 to 2024-02-01 is
due and 2024-02-01 to 2024-02-28 is not. -/
theorem shouldGenerate_monthly_yearly (last now : Timestamp) :
    (shouldGenerate .monthly (some last) now = true ↔
      (tsYear now, tsMonth now) ≠ (tsYear last, tsMonth last)) ∧
    (shouldGenerate .yearly (some last) now = true ↔ tsYear now ≠ tsYear last) ∧
    shouldGenerate .monthly (some (mkTs 2024 1 31 0 0 0)) (mkTs 2024 2 1 0 0 0) = true ∧
    shouldGenerate .monthly (some (mkTs 2024 2 1 0 0 0)) (mkTs 2024 2 28 0 0 0) = false := by
  refine ⟨?_, ?_, by decide, by decide⟩
  · simp only [shouldGenerate, Option.getD_some, Bool.or_eq_true, decide_eq_true_eq,
      ne_eq, Prod.mk.injEq]
    tauto
  · simp only [shouldGenerate, Option.getD_some, decide_eq_true_eq, ne_eq]

/-- The expense list produced by the processing loop: one fired expense
per active due record, in table order. -/
theorem processRecurring_expenses_eq (recs : List RecurringExpense)
    (now : Timestamp) :
    (processRecurring recs now).1 =
      (recs.filter (dueNow now)).map (fun x => fireExpense x now) := by
  induction recs with
  | nil => rfl
  | cons a l ih =>
      cases hdue : dueNow now a <;>
        simp [processRecurring, List.filter_cons, hdue, ih]

/-- The table after the processing loop: each active due record gets
`last_generated := now`, every other record is untouched. -/
theorem processRecurring_table_eq (recs : List RecurringExpense)
    (now : Timestamp) :
    (processRecurring recs now).2.1 =
      recs.map (fun x =>
        if dueNow now x then { x with last_generated := some now } else x) := by
  induction recs with
  | nil => rfl
  | cons a l ih =>
      cases hdue : dueNow now a <;>
        simp [processRecurring, hdue, ih]

/-- The count returned by the processing loop. -/
theorem processRecurring_count_eq (recs : List RecurringExpense)
    (now : Timestamp) :
    (processRecurring recs now).2.2 = (recs.filter (dueNow now)).length := by
  induction recs with
  | nil => rfl
  | cons a l ih =>
      cases hdue : dueNow now a <;>
        simp [processRecurring, List.filter_cons, hdue, ih]

/-- C3 (counterexample): for an active due record whose description is
absent, the materialized expense's description is the string
"Recurring: None", not the record's (absent) description. -/
theorem processRecurring_description_mismatch :
    ((processRecurring [recNoDesc] tNow).1.map (fun e => e.description)) =
      [some "Recurring: None"] ∧
    recNoDesc.description = none := by
  constructor
  · decide
  · rfl

/-- C3 (amended): every active record judged due at `now` materializes
exactly one new expense (one per due record, in table order) with the
record's amount, category and owner, timestamp `now`, and the record's
description provided that description is a non-empty string (otherwise
the Python fallback `recurring.description or f"Recurring: ..."` yields
"Recurring: None" or "Recurring: "); the record's `last_generated` is set
to `now` and non-due records are unchanged. -/
theorem processRecurring_fires (recs : List RecurringExpense)
    (now : Timestamp) (r : RecurringExpense) (s : String)
    (hdesc : r.description = some s) (hs : s ≠ "") :
    (processRecurring recs now).1 =
      (recs.filter (dueNow now)).map (fun x => fireExpense x now) ∧
    (processRecurring recs now).2.1 =
      recs.map (fun x =>
        if dueNow now x then { x with last_generated := some now } else x) ∧
    (processRecurring recs now).2.2 = (recs.filter (dueNow now)).length ∧
    (fireExpense r now).amount = r.amount ∧
    (fireExpense r now).category = r.category ∧
    (fireExpense r now).owner_id = r.owner_id ∧
    (fireExpense r now).date = now ∧
    (fireExpense r now).description = r.description := by
  refine ⟨processRecurring_expenses_eq recs now, processRecurring_table_eq recs now,
    processRecurring_count_eq recs now, rfl, rfl, rfl, rfl, ?_⟩
  simp [fireExpense, fireDescription, hdesc, hs]

/-- Witness for C3: the amended theorem applied to a one-record table with
description "Netflix". -/
theorem processRecurring_fires_witness :
    (fireExpense recNetflix tNow).description = recNetflix.description :=
  (processRecurring_fires [recNetflix] tNow recNetflix "Netflix" rfl
    (by decide)).2.2.2.2.2.2.2

/-- Python `round(0, 2) = 0`. -/
theorem round2_zero : round2 0 = 0 := by
  norm_num [round2, roundHalfEven]

/-- The reference time as a plain integer. -/
theorem tNow_val : tNow = 1718452800 := by decide

/-- Evaluation of the two-expense example's category breakdown. -/
theorem summarize_example_by_category :
    (summarize [expFood50, expTransport50] 12 tNow).by_category =
      [{ category := .food, total := 50, percentage := 50, count := 1 },
       { category := .transport, total := 50, percentage := 50, count := 1 }] := by
  norm_num +decide [summarize, categoryBreakdown, categorySummary, Category.all,
    round2, roundHalfEven, expFood50, expTransport50, tNow_val, List.filter_cons,
    monthStartOf, List.filterMap_cons, List.filterMap_nil]

/-- Evaluation of the two-expense example's total spending. -/
theorem summarize_example_total :
    (summarize [expFood50, expTransport50] 12 tNow).total_spending = 100 := by
  norm_num +decide [summarize, round2, roundHalfEven, expFood50, expTransport50,
    tNow_val, List.filter_cons]

/-- The categories emitted by the breakdown, over any enumeration list:
exactly those with at least one record, in list order. -/
theorem filterMap_categorySummary_categories (exps : List Expense) (T : ℚ) :
    ∀ (l : List Category),
      (l.filterMap (categorySummary exps T)).map (fun cs => cs.category) =
        l.filter (fun c =>
          !(exps.filter (fun e => decide (e.category = c))).isEmpty)
  | [] => rfl
  | c :: l => by
      cases hempty : (exps.filter (fun e => decide (e.category = c))).isEmpty <;>
        simp [List.filterMap_cons, List.filter_cons, categorySummary, hempty,
          filterMap_categorySummary_categories exps T l]

/-- Field values of any entry of the category breakdown. -/
theorem categoryBreakdown_fields (exps : List Expense) (T : ℚ)
    (cs : CategorySummary) (h : cs ∈ categoryBreakdown exps T) :
    cs.total =
      round2 ((exps.filter (fun e => decide (e.category = cs.category))).map
        (fun e => e.amount)).sum ∧
    cs.count =
      (exps.filter (fun e => decide (e.category = cs.category))).length ∧
    cs.percentage =
      round2 (if 0 < T then
        ((exps.filter (fun e => decide (e.category = cs.category))).map
          (fun e => e.amount)).sum / T * 100
      else 0) := by
  obtain ⟨c, _, hc⟩ := List.mem_filterMap.1 h
  unfold categorySummary at hc
  cases hempty : (exps.filter (fun e => decide (e.category = c))).isEmpty with
  | true => simp [hempty] at hc
  | false =>
      simp only [hempty, Bool.false_eq_true, if_false, Option.some.injEq] at hc
      subst hc
      exact ⟨rfl, rfl, rfl⟩

/-- The `by_category` field of the aggregator, unfolded. -/
theorem summarize_by_category_def (expenses : List Expense) (months : ℕ)
    (now : Timestamp) :
    (summarize expenses months now).by_category =
      categoryBreakdown
        (expenses.filter (fun e =>
          decide (now - 30 * (months : Int) * 86400 ≤ e.date)))
        ((expenses.filter (fun e =>
          decide (now - 30 * (months : Int) * 86400 ≤ e.date))).map
            (fun e => e.amount)).sum := rfl

/-- C5 (confirmed): the `by_category` list of the aggregator contains
exactly the categories with at least one record inside the window, in
enum declaration order; each entry carries that category's (rounded) sum,
its record count, and the guarded percentage `total / totalSpend * 100`
(0 when the total spend is not positive), rounded at emission; on the
two-expense example [(50, Food), (50, Transport)] it yields Food and
Transport entries with total 50, percentage 50, count 1, and overall
`total_spending` 100. -/
theorem summarize_by_category_spec (expenses : List Expense) (months : ℕ)
    (now : Timestamp) (cs : CategorySummary)
    (hcs : cs ∈ (summarize expenses months now).by_category) :
    ((summarize expenses months now).by_category.map (fun x => x.category) =
      Category.all.filter (fun c =>
        !((expenses.filter (fun e =>
            decide (now - 30 * (months : Int) * 86400 ≤ e.date))).filter
          (fun e => decide (e.category = c))).isEmpty)) ∧
    cs.total =
      round2 (((expenses.filter (fun e =>
          decide (now - 30 * (months : Int) * 86400 ≤ e.date))).filter
        (fun e => decide (e.category = cs.category))).map
          (fun e => e.amount)).sum ∧
    cs.count =
      ((expenses.filter (fun e =>
          decide (now - 30 * (months : Int) * 86400 ≤ e.date))).filter
        (fun e => decide (e.category = cs.category))).length ∧
    cs.percentage =
      round2 (if 0 < ((expenses.filter (fun e =>
            decide (now - 30 * (months : Int) * 86400 ≤ e.date))).map
          (fun e => e.amount)).sum then
        (((expenses.filter (fun e =>
            decide (now - 30 * (months : Int) * 86400 ≤ e.date))).filter
          (fun e => decide (e.category = cs.category))).map
            (fun e => e.amount)).sum /
          ((expenses.filter (fun e =>
            decide (now - 30 * (months : Int) * 86400 ≤ e.date))).map
          (fun e => e.amount)).sum * 100
      else 0) ∧
    (summarize [expFood50, expTransport50] 12 tNow).by_category =
      [{ category := .food, total := 50, percentage := 50, count := 1 },
       { category := .transport, total := 50, percentage := 50, count := 1 }] ∧
    (summarize [expFood50, expTransport50] 12 tNow).total_spending = 100 := by
  rw [summarize_by_category_def] at hcs ⊢
  have hfields := categoryBreakdown_fields _ _ cs hcs
  exact ⟨filterMap_categorySummary_categories _ _ Category.all,
    hfields.1, hfields.2.1, hfields.2.2, summarize_example_by_category,
    summarize_example_total⟩

/-- Witness for C5: the theorem applied to the two-expense example and
its Food entry. -/
theorem summarize_by_category_spec_witness :
    (summarize [expFood50, expTransport50] 12 tNow).total_spending = 100 :=
  (summarize_by_category_spec [expFood50, expTransport50] 12 tNow
    { category := .food, total := 50, percentage := 50, count := 1 }
    (by rw [summarize_example_by_category]; simp)).2.2.2.2.2

/-- The `monthly_trends` field of the aggregator, unfolded. -/
theorem summarize_monthly_trends_def (expenses : List Expense) (months : ℕ)
    (now : Timestamp) :
    (summarize expenses months now).monthly_trends =
      (List.range months).map (bucketSummary
        (expenses.filter (fun e =>
          decide (now - 30 * (months : Int) * 86400 ≤ e.date)))
        months now) := rfl

/-- C6 (confirmed): the monthly trend has exactly `months` buckets; the
bucket at index `i` covers the half-open 30-day window starting
`30 * (months - i)` days before `now`, carries the per-category breakdown
of the window-filtered expenses restricted to that bucket, is labeled
with the year-month string of the bucket start, and bucket starts grow
with the index (chronological order, oldest first). -/
theorem summarize_monthly_trends_spec (expenses : List Expense) (months : ℕ)
    (now : Timestamp) (i : ℕ) (hi : i < months) :
    (summarize expenses months now).monthly_trends.length = months ∧
    (summarize expenses months now).monthly_trends.get? i =
      some { month := yearMonthString (bucketStart months now i)
             total := round2
               (((bucketExpenses (windowFiltered expenses months now) months now i).map
                 (fun e => e.amount)).sum)
             by_category := categoryBreakdown
               (bucketExpenses (windowFiltered expenses months now) months now i)
               (((bucketExpenses (windowFiltered expenses months now) months now i).map
                 (fun e => e.amount)).sum) } ∧
    (∀ j : ℕ, j < i → bucketStart months now j < bucketStart months now i) := by
  refine ⟨?_, ?_, ?_⟩
  · rw [summarize_monthly_trends_def, List.length_map, List.length_range]
  · rw [summarize_monthly_trends_def, List.get?_map, List.get?_range hi]
    rfl
  · intro j hj
    have hj' : (j : Int) < (i : Int) := by exact_mod_cast hj
    simp only [bucketStart]
    have hmul : 30 * ((months : Int) - (i : Int)) * 86400 <
        30 * ((months : Int) - (j : Int)) * 86400 := by nlinarith
    linarith

/-- Witness for C6: the theorem applied to the empty table with a
two-month window at index 0. -/
theorem summarize_monthly_trends_spec_witness :
    (summarize [] 2 tNow).monthly_trends.length = 2 :=
  (summarize_monthly_trends_spec [] 2 tNow 0 (by decide)).1

/-- Running a pointwise-successful fallible step over a list succeeds with
the pointwise results. -/
theorem collectSome_eq_some {α β : Type} (f : α → Option β) (g : α → β)
    (l : List α) (h : ∀ a ∈ l, f a = some (g a)) :
    collectSome f l = some (l.map g) := by
  induction l with
  | nil => rfl
  | cons a l ih =>
      simp only [collectSome, h a (List.mem_cons_self a l),
        ih (fun x hx => h x (List.mem_cons_of_mem a hx)), Option.map_some',
        List.map_cons]

/-- The checked per-category step never divides by zero. -/
theorem categorySummary?_eq (exps : List Expense) (T : ℚ) (c : Category) :
    categorySummary? exps T c = some (categorySummary exps T c) := by
  unfold categorySummary? categorySummary
  cases hempty : (exps.filter (fun e => decide (e.category = c))).isEmpty with
  | true => simp [hempty]
  | false =>
      by_cases hT : 0 < T
      · simp [hempty, hT, div?, ne_of_gt hT]
      · simp [hempty, hT]

/-- The checked category breakdown never divides by zero. -/
theorem categoryBreakdown?_eq (exps : List Expense) (T : ℚ) :
    categoryBreakdown? exps T = some (categoryBreakdown exps T) := by
  unfold categoryBreakdown? categoryBreakdown
  rw [collectSome_eq_some (categorySummary? exps T) (categorySummary exps T) _
    (fun c _ => categorySummary?_eq exps T c)]
  simp [List.reduceOption, List.filterMap_map, Function.comp_def]

/-- The checked bucket step never divides by zero. -/
theorem bucketSummary?_eq (exps : List Expense) (months : ℕ) (now : Timestamp)
    (i : ℕ) :
    bucketSummary? exps months now i = some (bucketSummary exps months now i) := by
  simp only [bucketSummary?, bucketSummary, categoryBreakdown?_eq]

/-- Collecting all checked buckets succeeds. -/
theorem collect_buckets_eq (exps : List Expense) (months : ℕ) (now : Timestamp) :
    collectSome (bucketSummary? exps months now) (List.range months) =
      some ((List.range months).map (bucketSummary exps months now)) :=
  collectSome_eq_some _ _ _ (fun i _ => bucketSummary?_eq exps months now i)

/-- C7 (confirmed): with every division routed through checked division
(`none` modelling Python's `ZeroDivisionError`), the aggregator always
succeeds and agrees with the unchecked aggregator: the `> 0` guards on
the percentage denominators mean no division by zero is ever executed,
and the aggregator is total. -/
theorem summarizeChecked_eq (expenses : List Expense) (months : ℕ)
    (now : Timestamp) :
    summarizeChecked expenses months now = some (summarize expenses months now) := by
  simp only [summarizeChecked, summarize, categoryBreakdown?_eq, collect_buckets_eq]

/-- C8 (confirmed): on the empty expense list the aggregator returns total
spending 0, current-month spending 0, an empty category list, and exactly
`months` trend entries, each with total 0 and an empty category list. -/
theorem summarize_empty (months : ℕ) (now : Timestamp) :
    (summarize [] months now).total_spending = 0 ∧
    (summarize [] months now).current_month_spending = 0 ∧
    (summarize [] months now).by_category = [] ∧
    (summarize [] months now).monthly_trends.length = months ∧
    (summarize [] months now).monthly_trends.map (fun t => t.total) =
      List.replicate months 0 ∧
    (summarize [] months now).monthly_trends.map (fun t => t.by_category) =
      List.replicate months [] := by
  refine ⟨?_, ?_, rfl, ?_, ?_, ?_⟩
  · rw [show (summarize [] months now).total_spending = round2 0 from rfl,
      round2_zero]
  · rw [show (summarize [] months now).current_month_spending = round2 0 from rfl,
      round2_zero]
  · rw [summarize_monthly_trends_def, List.length_map, List.length_range]
  · rw [summarize_monthly_trends_def, List.map_map]
    have h : ((fun t => t.total) ∘ bucketSummary
        (([] : List Expense).filter (fun e =>
          decide (now - 30 * (months : Int) * 86400 ≤ e.date))) months now) =
        fun i : ℕ => (0 : ℚ) := by
      funext i
      exact round2_zero
    rw [h, List.map_const', List.length_range]
  · rw [summarize_monthly_trends_def, List.map_map]
    have h : ((fun t => t.by_category) ∘ bucketSummary
        (([] : List Expense).filter (fun e =>
          decide (now - 30 * (months : Int) * 86400 ≤ e.date))) months now) =
        fun i : ℕ => ([] : List CategorySummary) := by
      funext i
      rfl
    rw [h, List.map_const', List.length_range]

/-- Updating the first matching element with a key-preserving function
leaves the key list unchanged. -/
theorem updateFirst_map_key {α β : Type} (p : α → Bool) (f : α → α)
    (k : α → β) (hf : ∀ a, k (f a) = k a) :
    ∀ (l : List α), (updateFirst p f l).map k = l.map k
  | [] => rfl
  | a :: l => by
      by_cases hp : p a
      · simp [updateFirst, hp, hf]
      · simp [updateFirst, hp, updateFirst_map_key p f k hf l]

/-- C9 (confirmed): budget creation for an (owner, category) pair that
already has a budget is rejected with HTTP 400 and leaves the table
unchanged, and each of create, update and delete preserves uniqueness of
(owner_id, category) across the budgets table. -/
theorem budget_unique_invariant (st : List Budget) (uid : ℕ) (cat : Category)
    (lim : ℚ) (hst : uniqueOwnerCategory st) :
    ((∃ b ∈ st, b.owner_id = uid ∧ b.category = cat) →
      createBudget st uid cat lim = (.error 400, st)) ∧
    uniqueOwnerCategory (createBudget st uid cat lim).2 ∧
    uniqueOwnerCategory (updateBudget st uid cat lim).2 ∧
    uniqueOwnerCategory (deleteBudget st uid cat).2 := by
  refine ⟨?_, ?_, ?_, ?_⟩
  · rintro ⟨b, hb, h1, h2⟩
    have hany : st.any (fun b =>
        decide (b.owner_id = uid) && decide (b.category = cat)) = true :=
      List.any_eq_true.2 ⟨b, hb, by simp [h1, h2]⟩
    simp [createBudget, hany]
  · by_cases hc : st.any (fun b =>
        decide (b.owner_id = uid) && decide (b.category = cat)) = true
    · simpa [createBudget, hc] using hst
    · unfold createBudget
      rw [if_neg hc]
      unfold uniqueOwnerCategory
      rw [List.map_append, List.pairwise_append]
      refine ⟨hst, by simp, ?_⟩
      intro x hx y hy
      simp only [List.map_cons, List.map_nil, List.mem_singleton] at hy
      obtain ⟨b, hb, rfl⟩ := List.mem_map.1 hx
      have hnot : ∀ a ∈ st, ¬(decide (a.owner_id = uid) &&
          decide (a.category = cat)) = true := by
        intro a ha hcon
        exact hc (List.any_eq_true.2 ⟨a, ha, hcon⟩)
      have hb' := hnot b hb
      subst hy
      simp only [budgetKey, Bool.and_eq_true, decide_eq_true_eq, not_and] at hb' ⊢
      intro hkey
      have h1 : b.owner_id = uid := congrArg Prod.fst hkey
      have h2 : b.category = cat := congrArg Prod.snd hkey
      exact hb' h1 h2
  · rcases hf : st.find? (fun b =>
        decide (b.owner_id = uid) && decide (b.category = cat)) with _ | b
    · simp only [updateBudget, hf]
      exact hst
    · simp only [updateBudget, hf]
      unfold uniqueOwnerCategory
      rw [updateFirst_map_key
        (fun b => decide (b.owner_id = uid) && decide (b.category = cat))
        (fun b => { b with monthly_limit := lim }) budgetKey (fun a => rfl) st]
      exact hst
  · rcases hf : st.find? (fun b =>
        decide (b.owner_id = uid) && decide (b.category = cat)) with _ | b
    · simp only [deleteBudget, hf]
      exact hst
    · simp only [deleteBudget, hf]
      exact List.Pairwise.sublist ((List.eraseP_sublist st).map budgetKey) hst

/-- Witness for C9: creating a second Food budget for owner 1 on a
one-budget table is rejected with 400 and the table is unchanged. -/
theorem budget_unique_invariant_witness :
    createBudget [budgetFood] 1 .food 50 = (.error 400, [budgetFood]) :=
  (budget_unique_invariant [budgetFood] 1 .food 50 (by decide)).1
    ⟨budgetFood, List.mem_singleton.2 rfl, rfl, rfl⟩

/-- Elements not matching the predicate keep their value and position
under `updateFirst`. -/
theorem updateFirst_get?_of_not {α : Type} (p : α → Bool) (f : α → α) :
    ∀ (l : List α) (i : ℕ) (x : α), l.get? i = some x → p x = false →
      (updateFirst p f l).get? i = some x
  | [], i, x, h, _ => by simp at h
  | a :: l, i, x, h, hx => by
      by_cases hp : p a
      · cases i with
        | zero =>
            simp only [List.get?_cons_zero, Option.some.injEq] at h
            subst h
            rw [hp] at hx
            simp at hx
        | succ n =>
            simp only [List.get?_cons_succ] at h
            simp only [updateFirst, hp, if_true, List.get?_cons_succ]
            exact h
      · cases i with
        | zero =>
            simp only [List.get?_cons_zero] at h
            simp only [updateFirst, hp, if_false, List.get?_cons_zero]
            exact h
        | succ n =>
            simp only [List.get?_cons_succ] at h
            simp only [updateFirst, hp, if_false, List.get?_cons_succ]
            exact updateFirst_get?_of_not p f l n x h hx

/-- C10 (confirmed): in a partial update of a recurring expense, every
record other than the addressed one keeps its value and position; on the
updated record each field whose payload entry is omitted (None) keeps its
previous value, the description can never become null through the update,
and id, owner and `last_generated` are never touched. -/
theorem updateRecurring_frame (st : List RecurringExpense) (rid uid : ℕ)
    (u : RecurringExpenseUpdate) (i : ℕ) (r0 : RecurringExpense)
    (h1 : st.get? i = some r0) (h2 : ¬(r0.id = rid ∧ r0.owner_id = uid))
    (r : RecurringExpense) :
    (updateRecurringExpense st rid uid u).2.get? i = some r0 ∧
    (u.amount = none → (applyUpdate r u).amount = r.amount) ∧
    (u.category = none → (applyUpdate r u).category = r.category) ∧
    (u.description = none → (applyUpdate r u).description = r.description) ∧
    (u.frequency = none → (applyUpdate r u).frequency = r.frequency) ∧
    (u.is_active = none → (applyUpdate r u).is_active = r.is_active) ∧
    ((applyUpdate r u).description = none → r.description = none) ∧
    (applyUpdate r u).id = r.id ∧
    (applyUpdate r u).owner_id = r.owner_id ∧
    (applyUpdate r u).last_generated = r.last_generated := by
  refine ⟨?_, ?_, ?_, ?_, ?_, ?_, ?_, rfl, rfl, rfl⟩
  · have hp : (decide (r0.id = rid) && decide (r0.owner_id = uid)) = false := by
      rcases not_and_or.1 h2 with h | h <;> simp [h]
    rcases hf : st.find? (fun r =>
        decide (r.id = rid) && decide (r.owner_id = uid)) with _ | rr
    · simp only [updateRecurringExpense, hf]
      exact h1
    · simp only [updateRecurringExpense, hf]
      exact updateFirst_get?_of_not _ _ st i r0 h1 hp
  · intro h
    simp [applyUpdate, h]
  · intro h
    simp [applyUpdate, h]
  · intro h
    simp [applyUpdate, h]
  · intro h
    simp [applyUpdate, h]
  · intro h
    simp [applyUpdate, h]
  · cases hd : u.description with
    | none =>
        intro h
        simpa [applyUpdate, hd] using h
    | some d =>
        intro h
        simp [applyUpdate, hd] at h

/-- Witness for C10: the all-omitted payload addressed at record id 2
leaves record id 1 unchanged at position 0 and preserves the amount of
the updated record. -/
theorem updateRecurring_frame_witness :
    (updateRecurringExpense [recNoDesc, recNetflix] 2 1 emptyUpdate).2.get? 0 =
      some recNoDesc ∧
    (applyUpdate recNetflix emptyUpdate).amount = recNetflix.amount := by
  have h := updateRecurring_frame [recNoDesc, recNetflix] 2 1 emptyUpdate 0
    recNoDesc rfl (by decide) recNetflix
  exact ⟨h.1, h.2.1 rfl⟩

end FinTrack
